import Mathlib

/-!
Shallow embedding of the EasyThreads repository (sahillihas/EasyThreads).

Two thread managers live in the repository:
* `src/test.py` — a priority scheduler (`ThreadManager` with `max_workers`,
  a `queue.PriorityQueue` admission pool, `add_task`, `_wrapper`, `run`,
  `retry_failed_tasks`, `get_status`);
* `src/thread_manager.py` — a registry of managed threads (`ManagedThread`,
  `add_thread` with its `_runner` closure, `start_all`, `join_all`,
  `_unique_name`, ...).
* `src/safe_file_writer.py` — `SafeFileWriter.write`.

The embedding below models each Python construct by its observable sequential
behaviour: machine state is passed explicitly, Python exceptions become
explicit error values, and `threading` time is modelled by poll intervals
(one `time.sleep(0.1)` of the `run` loop = one tick).
-/

namespace EasyThreads

/-! ### Model of `src/test.py` (priority scheduler `ThreadManager`) -/

/-- The callables that can appear as the first element of a worker thread's
argument tuple.  `add_task` builds
`Thread(target=self._wrapper, args=(target, name) + args, ...)`, so the
stored argument is normally a user callable; `retry_failed_tasks` passes
`info["thread"]._target`, which is the bound method `self._wrapper` itself. -/
inductive Callable where
  | user (f : Nat)
  | wrapperMethod
deriving DecidableEq

/-- One entry of `self.threads` in `test.py`: the per-task bookkeeping dict.
`tgt` and `targs` are `thread._args[0]` and `thread._args[2:]` of the stored
`threading.Thread`; `tkwargs` is `thread._kwargs`. -/
structure TRecord where
  tgt : Callable
  targs : List Int
  tkwargs : List (String × Int)
  priority : Int
  progressId : Option Nat
  failed : Bool
deriving DecidableEq

/-- State of a `test.py` `ThreadManager`: the concurrency cap, the
`PriorityQueue` contents (kept sorted by the queue's order, see `QLE`),
and the insertion-ordered `self.threads` dict. -/
structure MState where
  maxWorkers : Int
  pool : List (Int × String)
  threads : List (String × TRecord)
deriving DecidableEq

/-- `queue.PriorityQueue` orders its `(priority, name)` entries by Python
tuple comparison: first the integer priority, then the name string
(lexicographically over its characters; `String.toList` exposes exactly that
order, cf. `String.lt_iff_toList_lt`).  `QLE a b` is that order. -/
def QLE (a b : Int × String) : Prop :=
  a.1 < b.1 ∨ (a.1 = b.1 ∧ ¬ b.2.toList < a.2.toList)

instance (a b : Int × String) : Decidable (QLE a b) := by
  unfold QLE; infer_instance

/-- Insert an entry into the pool, keeping it sorted by `QLE`.  A sorted list
with minimum-first retrieval is the observable behaviour of
`queue.PriorityQueue.put` / `.get` (a binary heap over Python tuples). -/
def qput (x : Int × String) : List (Int × String) → List (Int × String)
  | [] => [x]
  | y :: ys => if QLE x y then x :: y :: ys else y :: qput x ys

/-- Outcome of `ThreadManager.add_task`: either the task was registered and
pushed, or the submission was skipped (the Python code logs a warning and
`return`s — it raises nothing). -/
inductive AddOutcome where
  | added
  | skippedDuplicate
deriving DecidableEq

/-- `ThreadManager.__init__(max_workers)`: stores the cap and creates empty
pool and registry.  The constructor performs no validation and can never
fail, which the `Except` result type makes explicit. -/
def ThreadManager.init (maxWorkers : Int) : Except String MState :=
  Except.ok { maxWorkers := maxWorkers, pool := [], threads := [] }

/-- The state `ThreadManager.__init__(w)` produces. -/
def initState (w : Int) : MState :=
  { maxWorkers := w, pool := [], threads := [] }

/-- `ThreadManager.add_task(name, target, args, kwargs, priority)`.
If `name in self.threads`, it logs a warning and returns (nothing admitted);
otherwise it stores the record and puts `(priority, name)` on the queue. -/
def ThreadManager.addTask (st : MState) (name : String) (target : Callable)
    (args : List Int) (kwargs : List (String × Int)) (priority : Int) :
    MState × AddOutcome :=
  if (st.threads.map Prod.fst).contains name then
    (st, AddOutcome.skippedDuplicate)
  else
    ({ st with
        threads := st.threads ++
          [(name, { tgt := target, targs := args, tkwargs := kwargs,
                    priority := priority, progressId := none, failed := false })],
        pool := qput (priority, name) st.pool },
     AddOutcome.added)

/-- One submission for `add_task` with a user callable. -/
structure Submission where
  name : String
  target : Nat
  args : List Int
  kwargs : List (String × Int)
  priority : Int

/-- Register a list of submissions in order, as the example driver does. -/
def addTasks (st : MState) : List Submission → MState
  | [] => st
  | sub :: rest =>
      addTasks (ThreadManager.addTask st sub.name (Callable.user sub.target)
        sub.args sub.kwargs sub.priority).1 rest

/-- A launched worker thread as seen by the `run` loop: its name and the
number of poll intervals it remains alive (`Thread.is_alive()` is true while
the count is nonzero). -/
def threadAlive (t : String × Nat) : Bool :=
  t.2 != 0

/-- Number of alive threads in a launch list. -/
def aliveCount (l : List (String × Nat)) : Nat :=
  (l.filter threadAlive).length

/-- Result of the inner `while len(active_threads) < self.max_workers and not
self.thread_pool.empty()` loop of `run`: the updated active list, the
remaining pool, the `(priority, name)` entries started (in start order), and
a snapshot of the active list after each individual `thread.start()`. -/
structure StartResult where
  active : List (String × Nat)
  pool : List (Int × String)
  started : List (Int × String)
  snaps : List (List (String × Nat))

/-- The inner start loop of `ThreadManager.run`: while there is capacity and
the queue is non-empty, `get` the minimal `(priority, name)` entry, start its
thread and append it to `active_threads`.  `dur` gives each task's execution
duration in poll intervals. -/
def startLoop (maxW : Int) (dur : String → Nat) :
    List (Int × String) → List (String × Nat) → StartResult
  | [], active => ⟨active, [], [], []⟩
  | (p, n) :: rest, active =>
      if (active.length : Int) < maxW then
        let act1 := active ++ [(n, dur n)]
        let r := startLoop maxW dur rest act1
        ⟨r.active, r.pool, (p, n) :: r.started, act1 :: r.snaps⟩
      else ⟨active, (p, n) :: rest, [], []⟩

/-- State carried between iterations of the outer `while` loop of `run`. -/
structure RunState where
  pool : List (Int × String)
  active : List (String × Nat)

/-- Observable outcome of `ThreadManager.run`: the `(priority, name)` entries
in the order their threads were started, and every snapshot of the active
thread list (after the liveness prune, after each start, after each sleep). -/
structure RunResult where
  started : List (Int × String)
  snaps : List (List (String × Nat))

/-- The outer loop of `ThreadManager.run`, one iteration per `time.sleep(0.1)`
poll.  Each iteration prunes finished threads, starts new ones up to the cap,
then sleeps for one tick (all alive threads advance).  `fuel` bounds the
number of observed iterations. -/
def run (maxW : Int) (dur : String → Nat) : Nat → RunState → RunResult
  | 0, _ => ⟨[], []⟩
  | fuel + 1, s =>
      if s.pool.isEmpty && s.active.isEmpty then ⟨[], []⟩
      else
        let pruned := s.active.filter threadAlive
        let r := startLoop maxW dur s.pool pruned
        let slept := r.active.map (fun t => (t.1, t.2 - 1))
        let rest := run maxW dur fuel ⟨r.pool, slept⟩
        ⟨r.started ++ rest.started, (pruned :: r.snaps ++ [slept]) ++ rest.snaps⟩

/-- Python exceptions that the embedded control flow can raise. -/
inductive PyError where
  | runtimeError
deriving DecidableEq

/-- The body of `ThreadManager._wrapper` after the `progress_id` lookup:
`total = kwargs.pop("total", 100)` followed by
`for i in range(total): time.sleep(0.1); self.progress.update(...); target(*args, **kwargs)`.
The target is modelled by its behaviour on its successive invocations
(`tgt k` is what the `k`-th call does).  Returns the number of times the
target was invoked and, when a call raised, the caught cause (the
`except Exception` clause then sets the record's `failed` flag and logs;
nothing propagates out of the wrapper). -/
def wrapperLoop (tgt : Nat → Except String Unit) : Nat → Nat → Nat × Option String
  | 0, calls => (calls, none)
  | n + 1, calls =>
      match tgt calls with
      | Except.ok _ => wrapperLoop tgt n (calls + 1)
      | Except.error e => (calls + 1, some e)

/-- `ThreadManager._wrapper` invocation-counting semantics: `totalKwarg` is
the `"total"` entry of the wrapper's kwargs, defaulted to `100` by
`kwargs.pop("total", 100)`. -/
def ThreadManager.wrapperCalls (tgt : Nat → Except String Unit)
    (totalKwarg : Option Nat) : Nat × Option String :=
  wrapperLoop tgt (totalKwarg.getD 100) 0

/-- The derived name `retry_failed_tasks` submits for a failed task. -/
def retryName (name : String) : String :=
  name ++ "_retry"

/-- The `for name, info in self.threads.items(): ...` loop of
`retry_failed_tasks`.  CPython dict iterators compare the dict's current
size against the size captured at iterator creation (`d0`) on every `next()`
call — including the final one — and raise `RuntimeError` when the dict was
resized during iteration.  For each failed record, the loop calls
`add_task(name=f"{name}_retry", target=info["thread"]._target,
args=info["thread"]._args[2:], kwargs=info["thread"]._kwargs,
priority=info["priority"])`; since `thread._target` is the bound method
`self._wrapper`, the retried record's stored callable is the wrapper itself. -/
def retryLoop (d0 : Nat) : List (String × TRecord) → MState → MState × Option PyError
  | [], st =>
      if st.threads.length = d0 then (st, none) else (st, some PyError.runtimeError)
  | (name, info) :: rest, st =>
      if st.threads.length = d0 then
        let st' :=
          if info.failed then
            (ThreadManager.addTask st (retryName name) Callable.wrapperMethod
              info.targs info.tkwargs info.priority).1
          else st
        retryLoop d0 rest st'
      else (st, some PyError.runtimeError)

/-- `ThreadManager.retry_failed_tasks` up to its trailing `self.run()` call:
the iteration over the live `self.threads` dict.  When the loop raises, the
trailing `self.run()` is never reached; when it completes normally, `run`
(modelled by `EasyThreads.run`) is invoked on the resulting state. -/
def ThreadManager.retryFailedTasks (st : MState) : MState × Option PyError :=
  retryLoop st.threads.length st.threads st

/-! ### Model of `src/thread_manager.py` (`ManagedThread` registry) -/

/-- `ManagedThread`: metadata and state for one managed thread.  `done`
models the `threading.Event` (`false` = unset).  Results are `Int`s and
exceptions are `String` messages; `none` is Python `None`. -/
structure ManagedThread where
  name : String
  started : Bool := false
  startTime : Option Nat := none
  endTime : Option Nat := none
  result : Option Int := none
  exception : Option String := none
  done : Bool := false
deriving DecidableEq

/-- A freshly registered `ManagedThread` (as built by `add_thread`). -/
def initItem (name : String) : ManagedThread :=
  { name := name }

/-- Lifecycle states derived from a `ManagedThread`'s flags: `pending` before
`thread.start()`, `running` between the start and the `done` event, and
`terminal` once `done` is set. -/
inductive LifeState where
  | pending
  | running
  | terminal
deriving DecidableEq

/-- Derived lifecycle state of a record. -/
def stateOf (it : ManagedThread) : LifeState :=
  if !it.started then LifeState.pending
  else if !it.done then LifeState.running
  else LifeState.terminal

/-- The `_runner` closure of `add_thread`, acting on its `ManagedThread`.
The target is modelled by its behaviour when invoked with the stored
arguments (`Except.ok v` = normal return of `v`, `Except.error e` = raise).
Returns the mutated record together with the exception escaping `_runner`
(`none` when nothing propagates): with `safe = true` the `except Exception`
clause captures the cause in `item.exception` and logs it; with
`safe = false` the exception propagates, but the `finally` clause still sets
`end_time` and the `done` event. -/
def runnerBody (safe : Bool) (tgt : Except String Int) (t0 t1 : Nat)
    (it : ManagedThread) : ManagedThread × Option String :=
  let s := { it with started := true, startTime := some t0 }
  let step : ManagedThread × Option String :=
    if safe then
      match tgt with
      | Except.ok v => ({ s with result := some v }, none)
      | Except.error e => ({ s with exception := some e }, none)
    else
      match tgt with
      | Except.ok v => ({ s with result := some v }, none)
      | Except.error e => (s, some e)
  ({ step.1 with endTime := some t1, done := true }, step.2)

/-- The successive observable states of a `ManagedThread` while its `_runner`
executes, one entry per field mutation: the record as registered, after
`item.started = True`, after `item.start_time = time.time()`, after the
try-block's result/exception assignment, after `item.end_time = time.time()`,
and after `item.done.set()`.  Any concurrent registry read sees one of these
snapshots (the fields are plain attributes mutated without holding the
manager's lock). -/
def runnerTrace (safe : Bool) (tgt : Except String Int) (t0 t1 : Nat)
    (name : String) : List ManagedThread :=
  let s0 := initItem name
  let s1 := { s0 with started := true }
  let s2 := { s1 with startTime := some t0 }
  let s3 :=
    if safe then
      match tgt with
      | Except.ok v => { s2 with result := some v }
      | Except.error e => { s2 with exception := some e }
    else
      match tgt with
      | Except.ok v => { s2 with result := some v }
      | Except.error _ => s2
  let s4 := { s3 with endTime := some t1 }
  let s5 := { s4 with done := true }
  [s0, s1, s2, s3, s4, s5]

/-- Run the (default) safe `_runner` of every registered thread: each thread
executes its own closure on its own record, independently of its siblings.
Returns, per thread, the final record and the exception escaping its runner. -/
def runAll (tasks : List (String × Except String Int)) (t0 t1 : Nat) :
    List (String × ManagedThread × Option String) :=
  tasks.map (fun tk => (tk.1, runnerBody true tk.2 t0 t1 (initItem tk.1)))

/-- A registered thread as seen by `join_all`: whether `thread.start()` was
called and the absolute instant (`time.time()`-style, with the call to
`join_all` at instant `0`) at which its run ends.  `Thread.is_alive()` at
instant `c` is `started ∧ c < finish`. -/
structure JThread where
  name : String
  started : Bool
  finish : Nat
deriving DecidableEq

/-- `Thread.is_alive()` at instant `c`. -/
def jalive (c : Nat) (t : JThread) : Bool :=
  t.started && decide (c < t.finish)

/-- `thread.join(timeout=remaining)` inside `join_all`, at clock `c` with the
overall `deadline`: joining a never-started thread raises `RuntimeError`
(CPython: "cannot join thread before it is started"); otherwise the calling
thread blocks until the target finishes or the deadline passes, and the new
clock value is returned. -/
def joinOne (deadline : Option Nat) (c : Nat) (t : JThread) :
    Except PyError Nat :=
  if !t.started then Except.error PyError.runtimeError
  else
    match deadline with
    | none => Except.ok (max c t.finish)
    | some d => Except.ok (min d (max c t.finish))

/-- The `for item in self._items.values()` loop of `join_all`: before each
join, `remaining = max(0.0, deadline - time.time())` is computed and the loop
breaks when it is zero; otherwise the item is joined with that budget.
Returns the clock at loop exit. -/
def joinAllLoop (deadline : Option Nat) : List JThread → Nat → Except PyError Nat
  | [], c => Except.ok c
  | t :: ts, c =>
      match deadline with
      | none =>
          match joinOne none c t with
          | Except.error e => Except.error e
          | Except.ok c' => joinAllLoop none ts c'
      | some d =>
          if d - c = 0 then Except.ok c
          else
            match joinOne (some d) c t with
            | Except.error e => Except.error e
            | Except.ok c' => joinAllLoop (some d) ts c'

/-- `ThreadManager.join_all(timeout)`: joins the registered threads under an
overall budget and returns `[n for n, it in self._items.items() if it.alive]`
— the names of threads still alive at return time — together with the clock
at which it returns (`0` means it returned without blocking). -/
def joinAll (timeout : Option Nat) (items : List JThread) :
    Except PyError (Nat × List String) :=
  match joinAllLoop timeout items 0 with
  | Except.error e => Except.error e
  | Except.ok c => Except.ok (c, (items.filter (jalive c)).map JThread.name)

/-- The `while f"{base}-{i}" in self._items: i += 1` loop of `_unique_name`,
probing suffixes `base-i`, `base-(i+1)`, ... and returning the first free
candidate.  `fuel` bounds the probes; `_unique_name` supplies one more probe
than there are registered names, which in the source always suffices since
the candidate names are pairwise distinct. -/
def uniqueNameLoop (used : List String) (base : String) : Nat → Nat → String
  | 0, i => base ++ "-" ++ toString i
  | fuel + 1, i =>
      if used.contains (base ++ "-" ++ toString i) then
        uniqueNameLoop used base fuel (i + 1)
      else base ++ "-" ++ toString i

/-- `ThreadManager._unique_name(base)`: return `base` when unused, else the
first free `base-i` for `i = 2, 3, ...`. -/
def ThreadManager.uniqueName (used : List String) (base : String) : String :=
  if used.contains base then uniqueNameLoop used base (used.length + 1) 2
  else base

/-! ### Model of `src/safe_file_writer.py` (`SafeFileWriter`) -/

/-- The data argument of `SafeFileWriter.write`: a string or a sequence of
strings. -/
inductive WData where
  | str (s : String)
  | seq (l : List String)
deriving DecidableEq

/-- The text a successful `write` appends to the file. -/
def payload (d : WData) (addNewline : Bool) : String :=
  match d with
  | WData.str s => s ++ (if addNewline then "\n" else "")
  | WData.seq l => String.intercalate "\n" l ++ (if addNewline then "\n" else "")

/-- The try-block of `SafeFileWriter.write`: open the file for append and
write the payload.  `fs` models the file system's response — `some e` when
`open`/`write` raises `OSError e`, `none` on success.  Returns the appended
content. -/
def writeBody (fs : Option String) (d : WData) (addNewline : Bool) :
    Except String String :=
  match fs with
  | some e => Except.error e
  | none => Except.ok (payload d addNewline)

/-- The observable effect of one `SafeFileWriter.write` call: the content
appended to the file (if any) and the error message passed to
`logging.error` (if any).  The Python method itself always returns `None`. -/
structure WriteEffect where
  appended : Option String
  logged : Option String
deriving DecidableEq

/-- `SafeFileWriter.write(data, add_newline)`: run the try-block; an
`OSError` is caught by the `except OSError` clause, logged, and swallowed.
The result is `Except.ok` exactly when no exception escapes to the caller. -/
def SafeFileWriter.write (fs : Option String) (d : WData) (addNewline : Bool) :
    Except String WriteEffect :=
  match writeBody fs d addNewline with
  | Except.ok content => Except.ok { appended := some content, logged := none }
  | Except.error e => Except.ok { appended := none, logged := some e }

/-! ### Helper lemmas about the admission queue order -/

theorem qle_trans {a b c : Int × String} (h1 : QLE a b) (h2 : QLE b c) : QLE a c := by
  rcases h1 with hp1 | ⟨he1, hs1⟩ <;> rcases h2 with hp2 | ⟨he2, hs2⟩
  · exact Or.inl (lt_trans hp1 hp2)
  · exact Or.inl (he2 ▸ hp1)
  · exact Or.inl (he1 ▸ hp2)
  · exact Or.inr ⟨he1.trans he2, not_lt.mpr (le_trans (not_lt.mp hs1) (not_lt.mp hs2))⟩

theorem qle_total (a b : Int × String) : QLE a b ∨ QLE b a := by
  rcases lt_trichotomy a.1 b.1 with h | h | h
  · exact Or.inl (Or.inl h)
  · rcases le_total a.2.toList b.2.toList with hs | hs
    · exact Or.inl (Or.inr ⟨h, not_lt.mpr hs⟩)
    · exact Or.inr (Or.inr ⟨h.symm, not_lt.mpr hs⟩)
  · exact Or.inr (Or.inl h)

theorem mem_qput {x y : Int × String} : ∀ {l : List (Int × String)},
    y ∈ qput x l ↔ y = x ∨ y ∈ l := by
  intro l
  induction l with
  | nil => simp [qput]
  | cons z zs ih =>
      by_cases h : QLE x z
      · simp [qput, h]
      · simp [qput, h, ih]
        tauto

theorem qput_pairwise {x : Int × String} : ∀ {l : List (Int × String)},
    l.Pairwise QLE → (qput x l).Pairwise QLE := by
  intro l
  induction l with
  | nil => intro _; simp [qput]
  | cons z zs ih =>
      intro h
      rcases List.pairwise_cons.mp h with ⟨hz, hzs⟩
      by_cases hxz : QLE x z
      · simp only [qput, if_pos hxz]
        refine List.pairwise_cons.mpr ⟨?_, h⟩
        intro w hw
        rcases List.mem_cons.mp hw with rfl | hw
        · exact hxz
        · exact qle_trans hxz (hz w hw)
      · simp only [qput, if_neg hxz]
        refine List.pairwise_cons.mpr ⟨?_, ih hzs⟩
        intro w hw
        rcases mem_qput.mp hw with rfl | hw
        · exact (qle_total _ z).resolve_left hxz
        · exact hz w hw

theorem addTask_pool_pairwise {st : MState} {name : String} {tgt : Callable}
    {args : List Int} {kw : List (String × Int)} {p : Int}
    (h : st.pool.Pairwise QLE) :
    ((ThreadManager.addTask st name tgt args kw p).1).pool.Pairwise QLE := by
  unfold ThreadManager.addTask
  split
  · exact h
  · exact qput_pairwise h

theorem addTasks_pool_pairwise : ∀ (subs : List Submission) (st : MState),
    st.pool.Pairwise QLE → (addTasks st subs).pool.Pairwise QLE := by
  intro subs
  induction subs with
  | nil => intro st h; exact h
  | cons sub rest ih =>
      intro st h
      exact ih _ (addTask_pool_pairwise h)

/-! ### Helper lemmas about the `run` loop -/

theorem startLoop_started_append (maxW : Int) (dur : String → Nat) :
    ∀ (pool : List (Int × String)) (active : List (String × Nat)),
      (startLoop maxW dur pool active).started ++ (startLoop maxW dur pool active).pool
        = pool := by
  intro pool
  induction pool with
  | nil => intro active; simp [startLoop]
  | cons e rest ih =>
      intro active
      obtain ⟨p, n⟩ := e
      by_cases h : (active.length : Int) < maxW
      · simp only [startLoop, if_pos h, List.cons_append]
        rw [ih]
      · simp [startLoop, if_neg h]

theorem startLoop_bound (maxW : Int) (dur : String → Nat) :
    ∀ (pool : List (Int × String)) (active : List (String × Nat)),
      (active.length : Int) ≤ maxW →
      (∀ l ∈ (startLoop maxW dur pool active).snaps, (l.length : Int) ≤ maxW) ∧
        (((startLoop maxW dur pool active).active.length : Int) ≤ maxW) := by
  intro pool
  induction pool with
  | nil => intro active h; simp [startLoop, h]
  | cons e rest ih =>
      intro active h
      obtain ⟨p, n⟩ := e
      by_cases hlt : (active.length : Int) < maxW
      · have hlen : (((active ++ [(n, dur n)]).length : Int)) ≤ maxW := by
          simp only [List.length_append, List.length_singleton]
          push_cast
          omega
        have := ih (active ++ [(n, dur n)]) hlen
        simp only [startLoop, if_pos hlt]
        refine ⟨?_, this.2⟩
        intro l hl
        rcases List.mem_cons.mp hl with rfl | hl
        · exact hlen
        · exact this.1 l hl
      · simp only [startLoop, if_neg hlt]
        exact ⟨by simp, h⟩

theorem run_started_prefix (maxW : Int) (dur : String → Nat) :
    ∀ (fuel : Nat) (s : RunState),
      ∃ rest, (run maxW dur fuel s).started ++ rest = s.pool := by
  intro fuel
  induction fuel with
  | zero => intro s; exact ⟨s.pool, rfl⟩
  | succ fuel ih =>
      intro s
      by_cases hstop : s.pool.isEmpty && s.active.isEmpty
      · exact ⟨s.pool, by simp [run, hstop]⟩
      · obtain ⟨rest', hrest'⟩ :=
          ih ⟨(startLoop maxW dur s.pool (s.active.filter threadAlive)).pool,
              (startLoop maxW dur s.pool (s.active.filter threadAlive)).active.map
                (fun t => (t.1, t.2 - 1))⟩
        refine ⟨rest', ?_⟩
        simp only [run, hstop, Bool.false_eq_true, if_false, List.append_assoc]
        rw [hrest']
        exact startLoop_started_append maxW dur s.pool (s.active.filter threadAlive)

theorem run_snaps_bound (maxW : Int) (dur : String → Nat) :
    ∀ (fuel : Nat) (s : RunState), ((s.active.length : Int) ≤ maxW) →
      ∀ l ∈ (run maxW dur fuel s).snaps, (l.length : Int) ≤ maxW := by
  intro fuel
  induction fuel with
  | zero => intro s _ l hl; simp [run] at hl
  | succ fuel ih =>
      intro s hs l hl
      by_cases hstop : s.pool.isEmpty && s.active.isEmpty
      · simp [run, hstop] at hl
      · simp only [run, hstop, Bool.false_eq_true, if_false] at hl
        have hpr : (((s.active.filter threadAlive).length : Int)) ≤ maxW :=
          le_trans (by exact_mod_cast Int.ofNat_le.mpr (List.length_filter_le _ _)) hs
        have hsl := startLoop_bound maxW dur s.pool (s.active.filter threadAlive) hpr
        rcases List.mem_append.mp hl with hl | hl
        · rcases List.mem_cons.mp hl with rfl | hl
          · exact hpr
          · rcases List.mem_append.mp hl with hl | hl
            · exact hsl.1 l hl
            · rcases List.mem_singleton.mp hl with rfl
              simpa using hsl.2
        · refine ih _ ?_ l hl
          simpa using hsl.2

/-! ### Claim C1 -/

/-- Claim C1: for every set of submitted tasks and every positive
`max_workers`, the number of tasks whose launched thread is still alive never
exceeds `max_workers` at any instant observed during `run()` — the run loop
starts a new task only while the count of alive launched threads is strictly
below the cap.  `snaps` collects the active-thread list at every observation
point of the loop (after the liveness prune, after every `thread.start()`,
and after every sleep), and `aliveCount` counts the alive threads in it. -/
theorem c1_running_count_bounded (subs : List Submission) (maxW : Int)
    (dur : String → Nat) (fuel : Nat) (hpos : 0 < maxW) :
    ∀ snap ∈ (run maxW dur fuel ⟨(addTasks (initState maxW) subs).pool, []⟩).snaps,
      ((aliveCount snap : Int) ≤ maxW) := by
  intro snap hsnap
  have hb := run_snaps_bound maxW dur fuel
    ⟨(addTasks (initState maxW) subs).pool, []⟩ (by simpa using hpos.le) snap hsnap
  have hfil : aliveCount snap ≤ snap.length := List.length_filter_le _ _
  exact le_trans (by exact_mod_cast Int.ofNat_le.mpr hfil) hb

/-- Witness for C1 at a concrete configuration: three tasks, `max_workers = 2`,
every task running for two poll intervals. -/
theorem c1_running_count_bounded_witness :
    (0 : Int) < 2 ∧
      ∀ snap ∈ (run 2 (fun _ => 2) 12
          ⟨(addTasks (initState 2)
              [⟨"a", 0, [], [], 0⟩, ⟨"b", 1, [], [], 1⟩, ⟨"c", 2, [], [], 2⟩]).pool,
            []⟩).snaps,
        ((aliveCount snap : Int) ≤ 2) :=
  ⟨by decide,
   c1_running_count_bounded
     [⟨"a", 0, [], [], 0⟩, ⟨"b", 1, [], [], 1⟩, ⟨"c", 2, [], [], 2⟩]
     2 (fun _ => 2) 12 (by decide)⟩

/-! ### Claim C2 -/

/-- The manager state after submitting, in this order, task `"b"` and then
task `"a"`, both with priority `0` (and `max_workers = 1`). -/
def c2State : MState :=
  addTasks (initState 1) [⟨"b", 0, [], [], 0⟩, ⟨"a", 1, [], [], 0⟩]

/-- Claim C2 counterexample: the claim's FIFO tie-break fails on the code.
`queue.PriorityQueue` compares the `(priority, name)` tuples, so equal
priorities are broken by the name string, not by insertion order: after
submitting `"b"` and then `"a"` with equal priority `0`, `run` (cap 1, each
task alive for one interval) starts `"a"` strictly before the
earlier-submitted `"b"` — the start order is `["a", "b"]`, and the index of
`"b"` in it is not `≤` the index of `"a"`. -/
theorem c2_fifo_tiebreak_counterexample :
    ((run 1 (fun _ => 1) 10 ⟨c2State.pool, []⟩).started.map Prod.snd = ["a", "b"]) ∧
      ¬ ((run 1 (fun _ => 1) 10 ⟨c2State.pool, []⟩).started.map Prod.snd).indexOf "b"
          ≤ ((run 1 (fun _ => 1) 10 ⟨c2State.pool, []⟩).started.map Prod.snd).indexOf "a" := by
  constructor
  · decide
  · decide

/-- Claim C2 amended: admission is in strict priority order (smaller priority
value first), but among equal priorities the tie is broken by the task name's
lexicographic order — the `PriorityQueue` heap order on `(priority, name)`
tuples — not by submission order.  Formally, for every submission list,
concurrency cap, duration assignment and observation budget, the sequence of
`(priority, name)` entries started by `run` is sorted by the queue order
`QLE`. -/
theorem c2_priority_order_name_tiebreak (subs : List Submission) (maxW : Int)
    (dur : String → Nat) (fuel : Nat) :
    ((run maxW dur fuel ⟨(addTasks (initState maxW) subs).pool, []⟩).started).Pairwise QLE := by
  obtain ⟨rest, hrest⟩ :=
    run_started_prefix maxW dur fuel ⟨(addTasks (initState maxW) subs).pool, []⟩
  have hpool : ((addTasks (initState maxW) subs).pool).Pairwise QLE :=
    addTasks_pool_pairwise subs (initState maxW) (by simp [initState])
  have hsub :
      (run maxW dur fuel ⟨(addTasks (initState maxW) subs).pool, []⟩).started.Sublist
        ((run maxW dur fuel ⟨(addTasks (initState maxW) subs).pool, []⟩).started ++ rest) :=
    List.sublist_append_left _ _
  rw [hrest] at hsub
  exact List.Pairwise.sublist hsub hpool

/-! ### Claim C3 -/

/-- Claim C3: for every task whose callable raises, the (default, `safe=True`)
execution wrapper `_runner` stores the failure cause on the task's record
(`item.exception`), thereby marking it failed (it is exactly the records with
a stored exception that `exceptions()` reports), lets no exception escape the
wrapper (the escaping-exception component is `none`), and leaves every
sibling task unaffected: any other submitted task whose callable returns
normally still runs to completion with its result stored and its completion
event set. -/
theorem c3_failure_contained (tasks : List (String × Except String Int))
    (t0 t1 : Nat) (i : Nat) (n e : String)
    (hi : tasks[i]? = some (n, Except.error e)) :
    ((runAll tasks t0 t1)[i]? =
        some (n, runnerBody true (Except.error e) t0 t1 (initItem n)) ∧
      (runnerBody true (Except.error e) t0 t1 (initItem n)).2 = none ∧
      (runnerBody true (Except.error e) t0 t1 (initItem n)).1.exception = some e ∧
      (runnerBody true (Except.error e) t0 t1 (initItem n)).1.result = none ∧
      (runnerBody true (Except.error e) t0 t1 (initItem n)).1.done = true) ∧
    ∀ (j : Nat) (m : String) (v : Int), tasks[j]? = some (m, Except.ok v) →
      (runAll tasks t0 t1)[j]? =
          some (m, runnerBody true (Except.ok v) t0 t1 (initItem m)) ∧
        (runnerBody true (Except.ok v) t0 t1 (initItem m)).2 = none ∧
        (runnerBody true (Except.ok v) t0 t1 (initItem m)).1.result = some v ∧
        (runnerBody true (Except.ok v) t0 t1 (initItem m)).1.exception = none ∧
        (runnerBody true (Except.ok v) t0 t1 (initItem m)).1.done = true := by
  constructor
  · refine ⟨?_, rfl, rfl, rfl, rfl⟩
    simp [runAll, List.getElem?_map, hi]
  · intro j m v hj
    refine ⟨?_, rfl, rfl, rfl, rfl⟩
    simp [runAll, List.getElem?_map, hj]

/-- Witness for C3 at the spec's own scenario: three tasks, the middle one
raising `"boom"`, the other two returning normally. -/
theorem c3_failure_contained_witness :
    ([("a", Except.ok 1), ("b", Except.error "boom"), ("c", Except.ok 3)]
        : List (String × Except String Int))[1]? = some ("b", Except.error "boom") ∧
    ((runAll [("a", Except.ok 1), ("b", Except.error "boom"), ("c", Except.ok 3)] 0 1)[1]? =
        some ("b", runnerBody true (Except.error "boom") 0 1 (initItem "b")) ∧
      (runnerBody true (Except.error "boom") 0 1 (initItem "b")).2 = none ∧
      (runnerBody true (Except.error "boom") 0 1 (initItem "b")).1.exception = some "boom" ∧
      (runnerBody true (Except.error "boom") 0 1 (initItem "b")).1.result = none ∧
      (runnerBody true (Except.error "boom") 0 1 (initItem "b")).1.done = true) ∧
    ∀ (j : Nat) (m : String) (v : Int),
      ([("a", Except.ok 1), ("b", Except.error "boom"), ("c", Except.ok 3)]
          : List (String × Except String Int))[j]? = some (m, Except.ok v) →
      ((runAll [("a", Except.ok 1), ("b", Except.error "boom"), ("c", Except.ok 3)] 0 1)[j]? =
          some (m, runnerBody true (Except.ok v) 0 1 (initItem m)) ∧
        (runnerBody true (Except.ok v) 0 1 (initItem m)).2 = none ∧
        (runnerBody true (Except.ok v) 0 1 (initItem m)).1.result = some v ∧
        (runnerBody true (Except.ok v) 0 1 (initItem m)).1.exception = none ∧
        (runnerBody true (Except.ok v) 0 1 (initItem m)).1.done = true) :=
  ⟨rfl,
   c3_failure_contained
     [("a", Except.ok 1), ("b", Except.error "boom"), ("c", Except.ok 3)]
     0 1 1 "b" "boom" rfl⟩

/-! ### Claim C9 -/

/-- Claim C9 counterexample: the claim fails at the instant between the
try-block's `item.result = target(...)` assignment and the `finally` block's
`item.done.set()`.  For a callable returning `7`, the fourth snapshot of the
runner trace has `started = true` and `done = false` — the record is still
Running (its thread is alive and the completion event unset) — yet `result`
is already populated, contradicting "both are absent while the record's
state is Pending or Running".  The registry reads these plain attributes
without synchronisation, so the snapshot is observable. -/
theorem c9_running_result_counterexample :
    (runnerTrace true (Except.ok 7) 0 1 "t").any
      (fun s => stateOf s == LifeState.running && s.result.isSome) = true := by
  decide

/-- Claim C9 amended: at every observable instant of a record's lifecycle,
`result` and `exception` are mutually exclusive (never both present); both
are absent while the record is Pending; each is populated at most once
(consecutive snapshots never change an already-populated value); and neither
is ever populated before the record has started.  However, the population
happens while the record is still Running — strictly before the `done` event
is set — so "absent while Running" does not hold at every instant, only
"absent while Pending" does. -/
theorem c9_record_field_invariants (safe : Bool) (tgt : Except String Int)
    (t0 t1 : Nat) (nm : String) :
    (∀ s ∈ runnerTrace safe tgt t0 t1 nm,
        (s.result = none ∨ s.exception = none)) ∧
    (∀ s ∈ runnerTrace safe tgt t0 t1 nm, stateOf s = LifeState.pending →
        s.result = none ∧ s.exception = none) ∧
    (∀ s ∈ runnerTrace safe tgt t0 t1 nm,
        (s.result ≠ none ∨ s.exception ≠ none) → s.started = true) ∧
    List.Chain'
      (fun a b => (∀ v, a.result = some v → b.result = some v) ∧
        (∀ e, a.exception = some e → b.exception = some e))
      (runnerTrace safe tgt t0 t1 nm) := by
  cases safe <;> rcases tgt with v | e <;>
    simp [runnerTrace, stateOf, initItem, List.chain'_cons]

/-- Witness for C9's amended invariants at a concrete raising task. -/
theorem c9_record_field_invariants_witness :
    (∀ s ∈ runnerTrace true (Except.error "boom") 0 1 "t",
        (s.result = none ∨ s.exception = none)) ∧
    (∀ s ∈ runnerTrace true (Except.error "boom") 0 1 "t",
        stateOf s = LifeState.pending → s.result = none ∧ s.exception = none) ∧
    (∀ s ∈ runnerTrace true (Except.error "boom") 0 1 "t",
        (s.result ≠ none ∨ s.exception ≠ none) → s.started = true) ∧
    List.Chain'
      (fun a b => (∀ v, a.result = some v → b.result = some v) ∧
        (∀ e, a.exception = some e → b.exception = some e))
      (runnerTrace true (Except.error "boom") 0 1 "t") :=
  c9_record_field_invariants true (Except.error "boom") 0 1 "t"

/-! ### Claim C4 -/

/-- Claim C4 counterexample: `join_all` returns
`[n for n, it in self._items.items() if it.alive]`, and a Pending
(never-started) thread is not alive, so with a zero timeout and one
registered task `"a"` that was never started, `join_all` returns the empty
list — not the full set `["a"]` of pending names the claim requires.  (It
does return without blocking: the returned clock is `0`.) -/
theorem c4_join_pending_counterexample :
    joinAll (some 0) [⟨"a", false, 5⟩] = Except.ok (0, []) ∧
      ([] : List String) ≠ ["a"] := by
  exact ⟨rfl, by decide⟩

/-- Claim C4 amended: `join_all` with a timeout returns the names of the
threads still *alive* — started and not yet finished, i.e. Running — at
return time; Pending (never-started) threads are never included.  With a
zero timeout the overall budget is exhausted before the first join, so the
call returns immediately (final clock `0`) with the names of the threads
alive at that instant; in particular, when every registered task is still
pending it returns the empty list without blocking. -/
theorem c4_join_zero_timeout_alive_only (items : List JThread) :
    joinAll (some 0) items =
        Except.ok (0, (items.filter (jalive 0)).map JThread.name) ∧
      ((∀ t ∈ items, t.started = false) →
        joinAll (some 0) items = Except.ok (0, [])) := by
  have hloop : joinAllLoop (some 0) items 0 = Except.ok 0 := by
    cases items with
    | nil => rfl
    | cons t ts => rfl
  constructor
  · simp [joinAll, hloop]
  · intro hpend
    have hfil : items.filter (jalive 0) = [] := by
      apply List.filter_eq_nil_iff.mpr
      intro t ht
      simp [jalive, hpend t ht]
    simp [joinAll, hloop, hfil]

/-- Witness for C4's amended statement: two pending tasks, zero timeout. -/
theorem c4_join_zero_timeout_alive_only_witness :
    (joinAll (some 0) [⟨"a", false, 5⟩, ⟨"b", false, 3⟩] =
        Except.ok (0, (([⟨"a", false, 5⟩, ⟨"b", false, 3⟩] : List JThread).filter
          (jalive 0)).map JThread.name) ∧
      ((∀ t ∈ ([⟨"a", false, 5⟩, ⟨"b", false, 3⟩] : List JThread), t.started = false) →
        joinAll (some 0) [⟨"a", false, 5⟩, ⟨"b", false, 3⟩] = Except.ok (0, []))) ∧
    joinAll (some 0) [⟨"a", false, 5⟩, ⟨"b", false, 3⟩] = Except.ok (0, []) :=
  ⟨c4_join_zero_timeout_alive_only [⟨"a", false, 5⟩, ⟨"b", false, 3⟩],
   (c4_join_zero_timeout_alive_only [⟨"a", false, 5⟩, ⟨"b", false, 3⟩]).2
     (by decide)⟩

/-! ### Claim C5 -/

/-- A manager state as left by a run in which the single task `"t1"`
(user callable `7`, argument `4`, priority `2`) failed. -/
def c5State : MState :=
  { maxWorkers := 3, pool := [],
    threads := [("t1",
      { tgt := Callable.user 7, targs := [4], tkwargs := [],
        priority := 2, progressId := some 0, failed := true })] }

/-- Claim C5 evaluated at the failing input (one Failed task): the code does
add exactly one new record `"t1_retry"` with the original arguments and
priority, pushes `(2, "t1_retry")` onto the queue, and leaves the original
record untouched — but the new record's stored callable is the bound method
`self._wrapper` (taken from `thread._target`), not the failed task's original
callable `user 7`; and the `add_task` call resizes `self.threads` while
`retry_failed_tasks` is iterating over it, so the very next iterator step
raises `RuntimeError` and the trailing `self.run()` is never reached. -/
theorem c5_retry_rewraps_and_raises :
    ThreadManager.retryFailedTasks c5State =
      ({ maxWorkers := 3,
         pool := [(2, "t1_retry")],
         threads := [("t1",
             { tgt := Callable.user 7, targs := [4], tkwargs := [],
               priority := 2, progressId := some 0, failed := true }),
           ("t1_retry",
             { tgt := Callable.wrapperMethod, targs := [4], tkwargs := [],
               priority := 2, progressId := none, failed := false })] },
       some PyError.runtimeError) ∧
      (ThreadManager.retryFailedTasks c5State).1.threads.map (fun en => en.2.tgt)
        = [Callable.user 7, Callable.wrapperMethod] ∧
      Callable.wrapperMethod ≠ Callable.user 7 := by
  refine ⟨by decide, by decide, by decide⟩

/-! ### Claim C6 -/

/-- A manager holding one record named `"x"` (the spec's duplicate-name
scenario with `max_workers = 2`). -/
def c6StateOne : MState :=
  (ThreadManager.addTask (initState 2) "x" (Callable.user 0) [] [] 0).1

/-- Claim C6 counterexample: submitting a second task named `"x"` follows
*neither* of the claim's two policies.  `add_task` returns normally after
logging a warning (there is no `DuplicateName` failure — the outcome is a
plain skip), it admits nothing (the state is unchanged), and it does not
auto-disambiguate (the registry still holds only `"x"`; no `"x-2"` record
exists). -/
theorem c6_duplicate_policy_counterexample :
    ThreadManager.addTask c6StateOne "x" (Callable.user 1) [] [] 5
        = (c6StateOne, AddOutcome.skippedDuplicate) ∧
      c6StateOne.threads.map Prod.fst = ["x"] ∧
      (c6StateOne.threads.map Prod.fst).contains "x-2" = false := by
  refine ⟨by decide, by decide, by decide⟩

/-- Claim C6 amended: the two submission operations of the repository apply
two different policies, neither of which raises a `DuplicateName` error.
`test.py`'s `add_task` silently skips any submission whose name is already
registered: it logs a warning, admits nothing, and returns normally with the
state unchanged.  `thread_manager.py`'s `add_thread` deterministically
auto-disambiguates via `_unique_name`: a taken base name `"x"` becomes
`"x-2"`, then `"x-3"`, and an unused base name is kept as is. -/
theorem c6_duplicate_skip_and_autosuffix (st : MState) (name : String)
    (tgt : Callable) (args : List Int) (kw : List (String × Int)) (p : Int)
    (h : (st.threads.map Prod.fst).contains name = true) :
    ThreadManager.addTask st name tgt args kw p = (st, AddOutcome.skippedDuplicate) ∧
      ThreadManager.uniqueName ["x"] "x" = "x-2" ∧
      ThreadManager.uniqueName ["x", "x-2"] "x" = "x-3" ∧
      ThreadManager.uniqueName ["y"] "x" = "x" := by
  refine ⟨?_, by decide, by decide, by decide⟩
  unfold ThreadManager.addTask
  rw [if_pos h]

/-- Witness for C6's amended statement at the concrete one-record registry. -/
theorem c6_duplicate_skip_and_autosuffix_witness :
    (ThreadManager.addTask c6StateOne "x" (Callable.user 1) [] [] 5
        = (c6StateOne, AddOutcome.skippedDuplicate) ∧
      ThreadManager.uniqueName ["x"] "x" = "x-2" ∧
      ThreadManager.uniqueName ["x", "x-2"] "x" = "x-3" ∧
      ThreadManager.uniqueName ["y"] "x" = "x") :=
  c6_duplicate_skip_and_autosuffix c6StateOne "x" (Callable.user 1) [] [] 5 (by decide)

/-! ### Claim C7 -/

/-- Claim C7 counterexample: constructing the scheduler with
`max_workers = 0` succeeds — `__init__` performs no validation, so a
scheduler instance *is* produced for a non-positive concurrency cap,
contradicting "rejected at construction time with a configuration error". -/
theorem c7_nonpositive_accepted_counterexample :
    ThreadManager.init 0 = Except.ok (initState 0) ∧
      (initState 0).maxWorkers = 0 := by
  exact ⟨rfl, rfl⟩

theorem startLoop_nonpos {maxW : Int} (dur : String → Nat) (hw : maxW ≤ 0) :
    ∀ (pool : List (Int × String)) (active : List (String × Nat)),
      startLoop maxW dur pool active = ⟨active, pool, [], []⟩ := by
  intro pool
  induction pool with
  | nil => intro active; rfl
  | cons e rest ih =>
      intro active
      obtain ⟨p, n⟩ := e
      have hnlt : ¬ ((active.length : Int) < maxW) := by
        have : (0 : Int) ≤ (active.length : Int) := Int.ofNat_nonneg _
        omega
      simp [startLoop, hnlt]

theorem run_nonpos_no_start {maxW : Int} (dur : String → Nat) (hw : maxW ≤ 0) :
    ∀ (fuel : Nat) (s : RunState), (run maxW dur fuel s).started = [] := by
  intro fuel
  induction fuel with
  | zero => intro s; rfl
  | succ fuel ih =>
      intro s
      by_cases hstop : s.pool.isEmpty && s.active.isEmpty
      · simp [run, hstop]
      · simp only [run, hstop, Bool.false_eq_true, if_false]
        rw [startLoop_nonpos dur hw]
        simp [ih]

/-- Claim C7 amended: the constructor performs no validation at all — for
*every* `max_workers` value, including zero and negative ones, it returns a
scheduler instance holding that cap; the failure mode is deferred to `run`,
which with a non-positive cap never starts any task (and hence spins forever
while the queue is non-empty). -/
theorem c7_init_no_validation (w : Int) :
    ThreadManager.init w = Except.ok (initState w) ∧
      (w ≤ 0 → ∀ (dur : String → Nat) (fuel : Nat) (subs : List Submission),
        (run w dur fuel ⟨(addTasks (initState w) subs).pool, []⟩).started = []) := by
  refine ⟨rfl, ?_⟩
  intro hw dur fuel subs
  exact run_nonpos_no_start dur hw fuel _

/-- Witness for C7's amended statement at `max_workers = -1` with one
submitted task. -/
theorem c7_init_no_validation_witness :
    (ThreadManager.init (-1) = Except.ok (initState (-1)) ∧
      ((-1 : Int) ≤ 0 → ∀ (dur : String → Nat) (fuel : Nat) (subs : List Submission),
        (run (-1) dur fuel ⟨(addTasks (initState (-1)) subs).pool, []⟩).started = [])) ∧
    (run (-1) (fun _ => 1) 5
        ⟨(addTasks (initState (-1)) [⟨"a", 0, [], [], 0⟩]).pool, []⟩).started = [] :=
  ⟨c7_init_no_validation (-1),
   (c7_init_no_validation (-1)).2 (by decide) (fun _ => 1) 5 [⟨"a", 0, [], [], 0⟩]⟩

/-! ### Claim C8 -/

/-- Claim C8 evaluated at the failing input: the `_wrapper` body advances the
progress bar by invoking the task callable once per progress unit —
`for i in range(total): ...; target(*args, **kwargs)` with
`total = kwargs.pop("total", 100)` — so a task submitted without a `total`
kwarg whose callable returns normally has its callable invoked `100` times,
not exactly once.  (The spec itself flags this repeated invocation as a
modelling bug of the source.) -/
theorem c8_wrapper_invokes_hundred_times :
    ThreadManager.wrapperCalls (fun _ => Except.ok ()) none = (100, none) ∧
      (100 : Nat) ≠ 1 := by
  refine ⟨by decide, by decide⟩

/-! ### Claim C10 -/

/-- Claim C10: `SafeFileWriter.write` never lets an `OSError` escape: for
every file-system outcome, data and newline flag, the call returns normally
(`Except.ok`, the Python method returning `None`); when opening or appending
raises `OSError e`, the error is caught and passed to `logging.error` and
nothing is appended; when the file system cooperates, the payload is
appended and nothing is logged.  A caller can never observe a failed write
through an exception or a return value. -/
theorem c10_write_never_raises (fs : Option String) (d : WData) (nl : Bool)
    (e : String) :
    (SafeFileWriter.write fs d nl).isOk = true ∧
      SafeFileWriter.write (some e) d nl
        = Except.ok { appended := none, logged := some e } ∧
      SafeFileWriter.write none d nl
        = Except.ok { appended := some (payload d nl), logged := none } := by
  refine ⟨?_, rfl, rfl⟩
  cases fs <;> rfl

end EasyThreads
